import Mathlib

/-!
Verification development for the connection engine of a cross-platform VPN
client.  The definitions below are a shallow embedding of the C++ sources:

 * `AutoConnSettingsPolicy` (automatic connection-attempt policy):
   plan construction, failure advancement, success recording, descriptor
   resolution (autoconnsettingspolicy.cpp);
 * `TestVPNTunnel` (tunnel health prober): attempt/timeout schedule and the
   ping-answer state machine (testvpntunnel.cpp);
 * `WireGuardConnection` (Windows WireGuard protocol connection):
   automatic-mode timeout handler and idempotent disconnect
   (wireguardconnection_win.cpp).

Machine integers of the C++ code are modelled as `Int`/`Nat`; Qt containers
as `List`; Qt signal emissions as explicit event lists returned by the
embedded operations.  QSettings (the durable settings store) is modelled as
an association list of string keys.
-/

/-- Protocols of the client (types::Protocol in the sources; the enum itself
is outside the extracted sources, its members are taken from their uses in
autoconnsettingspolicy.cpp: OPENVPN_UDP, WIREGUARD, UNINITIALIZED, an ikev2
predicate, plus the remaining protocols named by the spec). -/
inductive PROTOCOL where
  | OPENVPN_UDP
  | OPENVPN_TCP
  | IKEV2
  | WIREGUARD
  | STUNNEL
  | WSTUNNEL
  | UNINITIALIZED
deriving DecidableEq, Repr, Inhabited

/-- PROTOCOL::isIkev2Protocol. -/
def PROTOCOL.isIkev2Protocol (p : PROTOCOL) : Bool :=
  p == PROTOCOL.IKEV2

/-- Modelled from the spec: PROTOCOL::toLongString (types/protocol.cpp is not
among the extracted sources).  The spec only requires a serialized string
form that persists across restarts; concrete strings are representative. -/
def PROTOCOL.toLongString : PROTOCOL → String
  | .OPENVPN_UDP => "UDP"
  | .OPENVPN_TCP => "TCP"
  | .IKEV2 => "IKEv2"
  | .WIREGUARD => "WireGuard"
  | .STUNNEL => "Stealth"
  | .WSTUNNEL => "WStunnel"
  | .UNINITIALIZED => "Unknown"

/-- One types::PortItem of a types::PortMap: a protocol together with its
ordered candidate ports. -/
structure PortItem where
  protocol : PROTOCOL
  ports : List Nat
deriving DecidableEq, Repr, Inhabited

/-- AttemptInfo of autoconnsettingspolicy.h: protocol, index into the
PortMap, and the advance-to-next-node flag. -/
structure AttemptInfo where
  protocol : PROTOCOL
  portMapInd : Nat
  changeNode : Bool
deriving DecidableEq, Repr, Inhabited

/-- Modelled from the spec: the MAX_IKEV2_FAILED_ATTEMPTS constant of
autoconnsettingspolicy.h (the header is not among the extracted sources);
the spec states a fixed threshold constant, e.g. 4. -/
def MAX_IKEV2_FAILED_ATTEMPTS : Int := 4

/-- The filter of the constructor loop (autoconnsettingspolicy.cpp lines
50-61): an entry is kept unless (proxy enabled and protocol is OPENVPN_UDP)
or (failed-IKEv2 counter at threshold and protocol is IKEv2). -/
def keepPortMapEntry (isProxyEnabled : Bool) (failedIkev2Counter : Int)
    (p : PROTOCOL) : Bool :=
  !(isProxyEnabled && (p == PROTOCOL.OPENVPN_UDP)) &&
  !(decide (MAX_IKEV2_FAILED_ATTEMPTS ≤ failedIkev2Counter) && p.isIkev2Protocol)

/-- The constructor loop building localAttemps (lines 49-70): for each
surviving PortMap index an AttemptInfo with changeNode = false. -/
def filteredAttempts (portMap : List PortItem) (isProxyEnabled : Bool)
    (failedIkev2Counter : Int) : List AttemptInfo :=
  (portMap.enum.filter
      (fun p => keepPortMapEntry isProxyEnabled failedIkev2Counter p.2.protocol)).map
    (fun p => { protocol := p.2.protocol, portMapInd := p.1, changeNode := false })

/-- localAttemps.last().changeNode = true (lines 72-75): mark the last
surviving entry as node-advancing. -/
def markLastChangeNode : List AttemptInfo → List AttemptInfo
  | [] => []
  | [a] => [{ a with changeNode := true }]
  | a :: b :: rest => a :: markLastChangeNode (b :: rest)

/-- The removal loop of lines 83-92: find the first element satisfying the
predicate, return it together with the list with that occurrence removed. -/
def removeFirstMatch (p : α → Bool) : List α → Option (α × List α)
  | [] => none
  | x :: xs =>
      if p x then some (x, xs)
      else match removeFirstMatch p xs with
        | none => none
        | some (y, ys) => some (y, x :: ys)

/-- QVector::insert(i, x) for i ≤ size. -/
def insertAt (n : Nat) (x : α) : List α → List α
  | l => match n, l with
    | 0, l => x :: l
    | _ + 1, [] => [x]
    | n + 1, a :: l => a :: insertAt n x l

/-- Lines 77-104: if a previously successful protocol was saved, remove its
first occurrence and reinsert it at index 1 when the remaining front entry
is IKEv2, else at index 0. -/
def moveLastSuccessToFront (lastSuccessProtocolSaved : PROTOCOL)
    (localAttemps : List AttemptInfo) : List AttemptInfo :=
  if lastSuccessProtocolSaved == PROTOCOL.UNINITIALIZED then localAttemps
  else
    match removeFirstMatch (fun a => a.protocol == lastSuccessProtocolSaved)
        localAttemps with
    | none => localAttemps
    | some (firstAttemptInfo, rest) =>
        match rest with
        | [] => insertAt 0 firstAttemptInfo rest
        | a :: _ =>
            if a.protocol.isIkev2Protocol then insertAt 1 firstAttemptInfo rest
            else insertAt 0 firstAttemptInfo rest

/-- The attempt plan built by the AutoConnSettingsPolicy constructor
(lines 49-114): filter, mark last as node-advancing, reinsert the
remembered protocol, append the list once per node, then append the whole
result to itself. -/
def buildPlan (portMap : List PortItem) (isProxyEnabled : Bool)
    (failedIkev2Counter : Int) (lastSuccessProtocolSaved : PROTOCOL)
    (nodesCount : Nat) : List AttemptInfo :=
  let localAttemps :=
    moveLastSuccessToFront lastSuccessProtocolSaved
      (markLastChangeNode (filteredAttempts portMap isProxyEnabled failedIkev2Counter))
  let attemps := (List.replicate nodesCount localAttemps).flatten
  attemps ++ attemps

theorem markLastChangeNode_length (l : List AttemptInfo) :
    (markLastChangeNode l).length = l.length := by
  induction l with
  | nil => rfl
  | cons a rest ih =>
      cases rest with
      | nil => rfl
      | cons b rest' => simpa [markLastChangeNode] using ih

theorem removeFirstMatch_length {p : α → Bool} {l : List α} {x : α}
    {rest : List α} (h : removeFirstMatch p l = some (x, rest)) :
    rest.length + 1 = l.length := by
  induction l generalizing x rest with
  | nil => simp [removeFirstMatch] at h
  | cons a as ih =>
      by_cases hpa : p a = true
      · simp [removeFirstMatch, hpa] at h
        have := congrArg List.length h.2
        simp at this
        simp
        omega
      · cases hrm : removeFirstMatch p as with
        | none => simp [removeFirstMatch, hpa, hrm] at h
        | some pr =>
            obtain ⟨y, ys⟩ := pr
            simp [removeFirstMatch, hpa, hrm] at h
            have h2 := congrArg List.length h.2
            simp at h2
            have h3 := ih hrm
            simp
            omega

theorem insertAt_length (n : Nat) (x : α) (l : List α) :
    (insertAt n x l).length = l.length + 1 := by
  induction l generalizing n with
  | nil => cases n <;> rfl
  | cons a as ih =>
      cases n with
      | zero => rfl
      | succ m => simpa [insertAt] using ih m

theorem moveLastSuccessToFront_length (last : PROTOCOL)
    (l : List AttemptInfo) :
    (moveLastSuccessToFront last l).length = l.length := by
  unfold moveLastSuccessToFront
  by_cases hu : (last == PROTOCOL.UNINITIALIZED) = true
  · simp [hu]
  · simp only [hu, if_false, Bool.false_eq_true]
    cases hrm : removeFirstMatch (fun a => a.protocol == last) l with
    | none => rfl
    | some pr =>
        cases pr with
        | mk x rest =>
            have hlen := removeFirstMatch_length hrm
            cases rest with
            | nil => simp [insertAt_length, ← hlen]
            | cons a as =>
                by_cases hik : a.protocol.isIkev2Protocol = true
                · simp [hik, insertAt_length, ← hlen]
                · simp [hik, insertAt_length, ← hlen]

theorem replicate_flatten_length (n : Nat) (l : List α) :
    ((List.replicate n l).flatten).length = n * l.length := by
  induction n with
  | zero => simp
  | succ m ih => simp [List.replicate_succ, ih, Nat.succ_mul]; omega

/-- C1: for every PortMap, node count, proxy flag, counter value and
remembered protocol, the plan built by the AutoConnSettingsPolicy
constructor has length 2 × nodesCount × (number of PortMap entries
surviving the proxy and IKEv2 filters). -/
theorem buildPlan_length (portMap : List PortItem) (isProxyEnabled : Bool)
    (failedIkev2Counter : Int) (lastSuccessProtocolSaved : PROTOCOL)
    (nodesCount : Nat) :
    (buildPlan portMap isProxyEnabled failedIkev2Counter
        lastSuccessProtocolSaved nodesCount).length =
      2 * nodesCount *
        (filteredAttempts portMap isProxyEnabled failedIkev2Counter).length := by
  unfold buildPlan
  simp [replicate_flatten_length, moveLastSuccessToFront_length,
    markLastChangeNode_length]
  ring

/-- One server node of a location (locationsmodel::MutableLocationInfo node
state, as consumed by getCurrentConnectionSettings). -/
structure ServerNode where
  ips : List String
  hostname : String
  wgPubKey : String
  wgIp : String
deriving DecidableEq, Repr, Inhabited

/-- The slice of locationsmodel::MutableLocationInfo that the policy reads:
node list with the selected-node index, DNS name, x509 name, and the
static-IP location data (locationsmodel is outside the extracted sources;
fields mirror the accessors called in autoconnsettingspolicy.cpp). -/
structure LocationInfo where
  nodes : List ServerNode
  selectedNode : Nat
  dnsName : String
  verifyX509name : String
  isStaticIpsLocation : Bool
  staticIpUsername : String
  staticIpPassword : String
  staticIpPorts : List Nat
deriving DecidableEq, Repr, Inhabited

/-- MutableLocationInfo::selectNextNode, modelled as advancing the
selected-node index. -/
def LocationInfo.selectNextNode (li : LocationInfo) : LocationInfo :=
  { li with selectedNode := li.selectedNode + 1 }

/-- The mutable state of an AutoConnSettingsPolicy object; failedIkev2Counter
is the process-wide static member (autoconnsettingspolicy.cpp line 8),
threaded through the state explicitly. -/
structure PolicyState where
  attemps : List AttemptInfo
  curAttempt : Nat
  bIsAllFailed : Bool
  bStarted : Bool
  isFailedIkev2CounterAlreadyIncremented : Bool
  failedIkev2Counter : Int
  portMap : List PortItem
  locationInfo : LocationInfo
deriving DecidableEq, Repr, Inhabited

/-- The AttemptInfo used for an out-of-range index (the C++ code indexes
attemps_[curAttempt_] unconditionally; all reachable states index in
bounds). -/
def defaultAttempt : AttemptInfo :=
  { protocol := PROTOCOL.UNINITIALIZED, portMapInd := 0, changeNode := false }

/-- AutoConnSettingsPolicy::putFailedConnection (lines 128-153): no-op when
not started; increment the IKEv2 failure counter once per session on the
first IKEv2 failure; if the cursor is not at the last attempt, advance the
node selector when the current attempt is node-advancing and move the
cursor forward, else set the terminal-failure flag. -/
def putFailedConnection (s : PolicyState) : PolicyState :=
  if !s.bStarted then s
  else
    let s1 :=
      if (s.attemps.getD s.curAttempt defaultAttempt).protocol.isIkev2Protocol
          && !s.isFailedIkev2CounterAlreadyIncremented then
        { s with failedIkev2Counter := s.failedIkev2Counter + 1,
                 isFailedIkev2CounterAlreadyIncremented := true }
      else s
    if s1.curAttempt < s1.attemps.length - 1 then
      let s2 :=
        if (s1.attemps.getD s1.curAttempt defaultAttempt).changeNode then
          { s1 with locationInfo := s1.locationInfo.selectNextNode }
        else s1
      { s2 with curAttempt := s2.curAttempt + 1 }
    else
      { s1 with bIsAllFailed := true }

/-- AutoConnSettingsPolicy::isFailed (lines 155-162). -/
def isFailed (s : PolicyState) : Bool :=
  if !s.bStarted then false else s.bIsAllFailed

/-- AutoConnSettingsPolicy::reset (lines 116-120). -/
def resetPolicy (s : PolicyState) : PolicyState :=
  { s with curAttempt := 0, bIsAllFailed := false }

/-- Connection node type of CurrentConnectionDescr. -/
inductive ConnectionNodeType where
  | CONNECTION_NODE_DEFAULT
  | CONNECTION_NODE_STATIC_IPS
deriving DecidableEq, Repr, Inhabited

/-- CurrentConnectionDescr: resolved parameters for one attempt. -/
structure CurrentConnectionDescr where
  connectionNodeType : ConnectionNodeType
  protocol : PROTOCOL
  port : Nat
  ip : String
  hostname : String
  dnsHostName : String
  wgPeerPublicKey : String
  verifyX509name : String
  username : String
  password : String
  staticIpPorts : List Nat
deriving DecidableEq, Repr, Inhabited

/-- AutoConnSettingsPolicy::getCurrentConnectionSettings (lines 164-195).
getUseIpInd abstracts types::PortMap::getUseIpInd, which lives outside the
extracted sources; it only influences which ip of the selected node is
read.  The port is ports[0] of the PortMap entry of the current attempt. -/
def getCurrentConnectionSettings (getUseIpInd : PROTOCOL → Nat)
    (s : PolicyState) : CurrentConnectionDescr :=
  let attempt := s.attemps.getD s.curAttempt defaultAttempt
  let entry := s.portMap.getD attempt.portMapInd default
  let protocol := attempt.protocol
  let port := entry.ports.getD 0 0
  let useIpInd := getUseIpInd protocol
  let li := s.locationInfo
  let node := li.nodes.getD li.selectedNode default
  let ccd : CurrentConnectionDescr :=
    { connectionNodeType := ConnectionNodeType.CONNECTION_NODE_DEFAULT,
      protocol := protocol, port := port,
      ip := node.ips.getD useIpInd "",
      hostname := node.hostname,
      dnsHostName := li.dnsName,
      wgPeerPublicKey := node.wgPubKey,
      verifyX509name := li.verifyX509name,
      username := "", password := "", staticIpPorts := [] }
  if li.isStaticIpsLocation then
    let ccd2 :=
      { ccd with connectionNodeType := ConnectionNodeType.CONNECTION_NODE_STATIC_IPS,
                 username := li.staticIpUsername,
                 password := li.staticIpPassword,
                 staticIpPorts := li.staticIpPorts }
    if protocol == PROTOCOL.WIREGUARD then
      { ccd2 with ip := node.wgIp }
    else ccd2
  else ccd

/-- QSettings::setValue on the association-list model of the durable
settings store. -/
def setValue (settings : List (String × String)) (key value : String) :
    List (String × String) :=
  (key, value) :: settings.filter (fun kv => !(kv.1 == key))

/-- AutoConnSettingsPolicy::saveCurrentSuccessfullConnectionSettings
(lines 197-215): reset the IKEv2 failure counter when the current attempt's
protocol is IKEv2, then write only the key "successConnectionProtocol"
(the serialized protocol string) to the durable settings store. -/
def saveCurrentSuccessfullConnectionSettings (s : PolicyState)
    (settings : List (String × String)) :
    PolicyState × List (String × String) :=
  let s1 :=
    if (s.attemps.getD s.curAttempt defaultAttempt).protocol.isIkev2Protocol then
      { s with failedIkev2Counter := 0 }
    else s
  (s1, setValue settings "successConnectionProtocol"
        (s.attemps.getD s.curAttempt defaultAttempt).protocol.toLongString)

/-- The value of the process-wide static failedIkev2Counter_ at process
start (autoconnsettingspolicy.cpp line 8): the counter is an in-memory
static initialized to 0; no code path writes it to the settings store and
none reads it back. -/
def failedIkev2CounterAtProcessStart : Int := 0

theorem putFailedConnection_step (s : PolicyState) (hb : s.bStarted = true)
    (h : s.curAttempt < s.attemps.length - 1) :
    (putFailedConnection s).attemps = s.attemps ∧
    (putFailedConnection s).bStarted = true ∧
    (putFailedConnection s).bIsAllFailed = s.bIsAllFailed ∧
    (putFailedConnection s).curAttempt = s.curAttempt + 1 := by
  simp only [putFailedConnection]
  split_ifs <;> simp_all

theorem putFailedConnection_last (s : PolicyState) (hb : s.bStarted = true)
    (h : ¬ s.curAttempt < s.attemps.length - 1) :
    (putFailedConnection s).bIsAllFailed = true ∧
    (putFailedConnection s).bStarted = true := by
  simp only [putFailedConnection]
  split_ifs <;> simp_all

theorem putFailedConnection_iterate_inv (s0 : PolicyState)
    (hb : s0.bStarted = true) (hf : s0.bIsAllFailed = false)
    (hcur : s0.curAttempt = 0) :
    ∀ k, k ≤ s0.attemps.length - 1 →
      (putFailedConnection^[k] s0).attemps = s0.attemps ∧
      (putFailedConnection^[k] s0).bStarted = true ∧
      (putFailedConnection^[k] s0).bIsAllFailed = false ∧
      (putFailedConnection^[k] s0).curAttempt = k := by
  intro k
  induction k with
  | zero => intro _; simp [hb, hf, hcur]
  | succ m ih =>
      intro hm
      have hm' : m ≤ s0.attemps.length - 1 := Nat.le_of_succ_le hm
      obtain ⟨ha, hbs, hbf, hc⟩ := ih hm'
      have hlt : (putFailedConnection^[m] s0).curAttempt <
          (putFailedConnection^[m] s0).attemps.length - 1 := by
        rw [ha, hc]; omega
      obtain ⟨sa, sb, sf, sc⟩ := putFailedConnection_step _ hbs hlt
      rw [Function.iterate_succ_apply']
      exact ⟨by rw [sa, ha], sb, by rw [sf, hbf], by rw [sc, hc]⟩

/-- C2: for a started policy with a plan of length L ≥ 1, cursor at the
start and no terminal failure recorded, calling putFailedConnection fewer
than L times leaves isFailed false, and calling it exactly L times makes
isFailed true.  (L ≥ 1 because the C++ code indexes attemps_[curAttempt_]
unconditionally, so an empty plan is outside its domain.) -/
theorem putFailedConnection_drives_isFailed (s0 : PolicyState) (L : Nat)
    (hL : 1 ≤ L) (hlen : s0.attemps.length = L) (hb : s0.bStarted = true)
    (hcur : s0.curAttempt = 0) (hf : s0.bIsAllFailed = false) :
    (∀ k, k < L → isFailed (putFailedConnection^[k] s0) = false) ∧
    isFailed (putFailedConnection^[L] s0) = true := by
  constructor
  · intro k hk
    have hk' : k ≤ s0.attemps.length - 1 := by omega
    obtain ⟨_, hbs, hbf, _⟩ := putFailedConnection_iterate_inv s0 hb hf hcur k hk'
    simp [isFailed, hbs, hbf]
  · have hL1 : L - 1 ≤ s0.attemps.length - 1 := by omega
    obtain ⟨ha, hbs, hbf, hc⟩ :=
      putFailedConnection_iterate_inv s0 hb hf hcur (L - 1) hL1
    have hnlt : ¬ (putFailedConnection^[L - 1] s0).curAttempt <
        (putFailedConnection^[L - 1] s0).attemps.length - 1 := by
      rw [ha, hc, hlen]; omega
    obtain ⟨hfail, hstart⟩ := putFailedConnection_last _ hbs hnlt
    have hstep : L = (L - 1) + 1 := by omega
    rw [hstep, Function.iterate_succ_apply']
    simp [isFailed, hfail, hstart]

/-- Witness for C2 at a concrete started policy with a two-attempt plan. -/
theorem putFailedConnection_drives_isFailed_witness :
    isFailed (putFailedConnection^[1]
      { attemps := [{ protocol := PROTOCOL.OPENVPN_TCP, portMapInd := 0, changeNode := true },
                    { protocol := PROTOCOL.OPENVPN_TCP, portMapInd := 0, changeNode := true }],
        curAttempt := 0, bIsAllFailed := false, bStarted := true,
        isFailedIkev2CounterAlreadyIncremented := false, failedIkev2Counter := 0,
        portMap := [{ protocol := PROTOCOL.OPENVPN_TCP, ports := [443] }],
        locationInfo := default }) = false ∧
    isFailed (putFailedConnection^[2]
      { attemps := [{ protocol := PROTOCOL.OPENVPN_TCP, portMapInd := 0, changeNode := true },
                    { protocol := PROTOCOL.OPENVPN_TCP, portMapInd := 0, changeNode := true }],
        curAttempt := 0, bIsAllFailed := false, bStarted := true,
        isFailedIkev2CounterAlreadyIncremented := false, failedIkev2Counter := 0,
        portMap := [{ protocol := PROTOCOL.OPENVPN_TCP, ports := [443] }],
        locationInfo := default }) = true := by
  refine ⟨(putFailedConnection_drives_isFailed _ 2 (by decide) (by decide)
      (by decide) (by decide) (by decide)).1 1 (by decide),
    (putFailedConnection_drives_isFailed _ 2 (by decide) (by decide)
      (by decide) (by decide) (by decide)).2⟩

theorem mem_markLastChangeNode_protocol {a : AttemptInfo}
    {l : List AttemptInfo} (h : a ∈ markLastChangeNode l) :
    ∃ b ∈ l, b.protocol = a.protocol := by
  induction l with
  | nil => simp [markLastChangeNode] at h
  | cons x rest ih =>
      cases rest with
      | nil =>
          simp [markLastChangeNode] at h
          exact ⟨x, by simp, by rw [h]⟩
      | cons y rest' =>
          simp only [markLastChangeNode, List.mem_cons] at h
          rcases h with h | h
          · exact ⟨x, by simp, by rw [h]⟩
          · obtain ⟨b, hb, hp⟩ := ih h
            exact ⟨b, by simp [hb], hp⟩

theorem removeFirstMatch_mem {p : α → Bool} {l : List α} {x : α}
    {rest : List α} (h : removeFirstMatch p l = some (x, rest)) :
    x ∈ l ∧ ∀ y ∈ rest, y ∈ l := by
  induction l generalizing x rest with
  | nil => simp [removeFirstMatch] at h
  | cons a as ih =>
      by_cases hpa : p a = true
      · simp [removeFirstMatch, hpa] at h
        obtain ⟨rfl, rfl⟩ := h
        exact ⟨by simp, fun y hy => by simp [hy]⟩
      · cases hrm : removeFirstMatch p as with
        | none => simp [removeFirstMatch, hpa, hrm] at h
        | some pr =>
            obtain ⟨y, ys⟩ := pr
            simp [removeFirstMatch, hpa, hrm] at h
            obtain ⟨rfl, rfl⟩ := h
            obtain ⟨ihx, ihrest⟩ := ih hrm
            refine ⟨by simp [ihx], fun z hz => ?_⟩
            rcases List.mem_cons.mp hz with h' | h'
            · simp [h']
            · simp [ihrest z h']

theorem mem_insertAt {y x : α} {l : List α} {n : Nat}
    (h : y ∈ insertAt n x l) : y = x ∨ y ∈ l := by
  induction l generalizing n with
  | nil => cases n <;> simpa [insertAt] using h
  | cons a as ih =>
      cases n with
      | zero =>
          simp only [insertAt, List.mem_cons] at h
          rcases h with h | h
          · exact Or.inl h
          · exact Or.inr (List.mem_cons.mpr h)
      | succ m =>
          simp only [insertAt, List.mem_cons] at h
          rcases h with h | h
          · exact Or.inr (by simp [h])
          · rcases ih h with h' | h'
            · exact Or.inl h'
            · exact Or.inr (by simp [h'])

theorem mem_moveLastSuccessToFront {a : AttemptInfo} {last : PROTOCOL}
    {l : List AttemptInfo} (h : a ∈ moveLastSuccessToFront last l) : a ∈ l := by
  unfold moveLastSuccessToFront at h
  by_cases hu : (last == PROTOCOL.UNINITIALIZED) = true
  · simpa [hu] using h
  · simp only [hu, Bool.false_eq_true, if_false] at h
    cases hrm : removeFirstMatch (fun b => b.protocol == last) l with
    | none => rw [hrm] at h; exact h
    | some pr =>
        obtain ⟨x, rest⟩ := pr
        rw [hrm] at h
        obtain ⟨hxl, hrl⟩ := removeFirstMatch_mem hrm
        cases rest with
        | nil =>
            simp [insertAt] at h
            rw [h]; exact hxl
        | cons b bs =>
            by_cases hik : b.protocol.isIkev2Protocol = true
            · simp only [hik, if_true, insertAt, List.mem_cons] at h
              rcases h with h | h | h
              · rw [h]; exact hrl b (by simp)
              · rw [h]; exact hxl
              · exact hrl a (by simp [h])
            · simp only [hik, Bool.false_eq_true, if_false, insertAt,
                List.mem_cons] at h
              rcases h with h | h
              · rw [h]; exact hxl
              · exact hrl a (List.mem_cons.mpr h)

theorem mem_filteredAttempts_proxy {a : AttemptInfo} {portMap : List PortItem}
    {c : Int} (h : a ∈ filteredAttempts portMap true c) :
    (a.protocol == PROTOCOL.OPENVPN_UDP) = false := by
  simp only [filteredAttempts, List.mem_map, List.mem_filter] at h
  obtain ⟨p, ⟨_, hkeep⟩, hmk⟩ := h
  simp only [keepPortMapEntry, Bool.true_and, Bool.and_eq_true,
    Bool.not_eq_true'] at hkeep
  rw [← hmk]
  exact hkeep.1

theorem mem_buildPlan {a : AttemptInfo} {portMap : List PortItem}
    {isProxyEnabled : Bool} {c : Int} {last : PROTOCOL} {n : Nat}
    (h : a ∈ buildPlan portMap isProxyEnabled c last n) :
    ∃ b ∈ filteredAttempts portMap isProxyEnabled c, b.protocol = a.protocol := by
  simp only [buildPlan, List.mem_append, List.mem_flatten] at h
  have h' : ∃ l ∈ List.replicate n (moveLastSuccessToFront last
      (markLastChangeNode (filteredAttempts portMap isProxyEnabled c))), a ∈ l := by
    rcases h with h | h <;> exact h
  obtain ⟨l, hl, hal⟩ := h'
  rw [List.eq_of_mem_replicate hl] at hal
  exact mem_markLastChangeNode_protocol (mem_moveLastSuccessToFront hal)

/-- C3 counterexample: the claim says a proxy-filtered plan carries no
UDP-transported protocol (OpenVPN-UDP, IKEv2 or WireGuard); this predicate
follows the claim's wording. -/
def udpBasedProtocol (p : PROTOCOL) : Bool :=
  p == PROTOCOL.OPENVPN_UDP || p == PROTOCOL.IKEV2 || p == PROTOCOL.WIREGUARD

/-- C3 counterexample: with the proxy flag set, a PortMap holding WireGuard
and IKEv2 entries yields a plan whose attempts all carry UDP-transported
protocols in the claim's sense — the constructor's filter only drops
OPENVPN_UDP. -/
theorem proxyFilter_udpBased_counterexample :
    (buildPlan [{ protocol := PROTOCOL.WIREGUARD, ports := [51820] },
                { protocol := PROTOCOL.IKEV2, ports := [500] }]
        true 0 PROTOCOL.UNINITIALIZED 1).any
      (fun a => udpBasedProtocol a.protocol) = true := by
  decide

/-- C3 amended: when a proxy is active the plan-building filter drops
exactly the OpenVPN-UDP PortMap entries: no attempt of a plan built with
the proxy flag set carries protocol OPENVPN_UDP (IKEv2 and WireGuard
entries are not dropped by the proxy filter). -/
theorem buildPlan_proxy_no_openvpn_udp (portMap : List PortItem)
    (failedIkev2Counter : Int) (last : PROTOCOL) (nodesCount : Nat) :
    (buildPlan portMap true failedIkev2Counter last nodesCount).all
      (fun a => !(a.protocol == PROTOCOL.OPENVPN_UDP)) = true := by
  rw [List.all_eq_true]
  intro a ha
  obtain ⟨b, hb, hp⟩ := mem_buildPlan ha
  have := mem_filteredAttempts_proxy hb
  simp only [← hp, this, Bool.not_false]

/-- C7: when a remembered successful protocol is found among the filtered
entries, plan building removes its first occurrence and reinserts it at
index 0 when the remaining front entry's protocol is not IKEv2, and at
index 1 when the remaining front entry's protocol is IKEv2 (the remaining
front entry staying at index 0). -/
theorem moveLastSuccessToFront_position (last : PROTOCOL)
    (l : List AttemptInfo) (x : AttemptInfo) (rest : List AttemptInfo)
    (hu : last ≠ PROTOCOL.UNINITIALIZED)
    (hrm : removeFirstMatch (fun a => a.protocol == last) l = some (x, rest))
    (hne : rest ≠ []) :
    ((rest.headD defaultAttempt).protocol.isIkev2Protocol = false →
        moveLastSuccessToFront last l = x :: rest) ∧
    ((rest.headD defaultAttempt).protocol.isIkev2Protocol = true →
        (moveLastSuccessToFront last l).headD defaultAttempt =
            rest.headD defaultAttempt ∧
        (moveLastSuccessToFront last l)[1]? = some x) := by
  have hu' : (last == PROTOCOL.UNINITIALIZED) = false := by
    simp [beq_iff_eq, hu]
  cases rest with
  | nil => exact absurd rfl hne
  | cons b bs =>
      constructor
      · intro hik
        simp only [List.headD_cons] at hik
        simp only [moveLastSuccessToFront, hu', Bool.false_eq_true, if_false,
          hrm, hik, insertAt]
      · intro hik
        simp only [List.headD_cons] at hik
        simp only [moveLastSuccessToFront, hu', Bool.false_eq_true, if_false,
          hrm, hik, if_true, insertAt]
        exact ⟨rfl, by simp⟩

/-- Witness for C7: with filtered entries [IKEv2, WireGuard] and remembered
protocol WireGuard, the WireGuard attempt ends at index 1 and IKEv2 stays
at index 0. -/
theorem moveLastSuccessToFront_position_witness :
    (moveLastSuccessToFront PROTOCOL.WIREGUARD
        [{ protocol := PROTOCOL.IKEV2, portMapInd := 0, changeNode := false },
         { protocol := PROTOCOL.WIREGUARD, portMapInd := 1, changeNode := true }]).headD
        defaultAttempt =
      { protocol := PROTOCOL.IKEV2, portMapInd := 0, changeNode := false } ∧
    (moveLastSuccessToFront PROTOCOL.WIREGUARD
        [{ protocol := PROTOCOL.IKEV2, portMapInd := 0, changeNode := false },
         { protocol := PROTOCOL.WIREGUARD, portMapInd := 1, changeNode := true }])[1]? =
      some { protocol := PROTOCOL.WIREGUARD, portMapInd := 1, changeNode := true } := by
  exact (moveLastSuccessToFront_position PROTOCOL.WIREGUARD _
      { protocol := PROTOCOL.WIREGUARD, portMapInd := 1, changeNode := true }
      [{ protocol := PROTOCOL.IKEV2, portMapInd := 0, changeNode := false }]
      (by decide) (by decide) (by decide)).2 (by decide)

theorem lookup_filter_ne (st : List (String × String)) (k key : String)
    (h : key ≠ k) :
    (st.filter (fun kv => !(kv.1 == k))).lookup key = st.lookup key := by
  induction st with
  | nil => rfl
  | cons a t ih =>
      by_cases hak : (a.1 == k) = true
      · have hka : (key == a.1) = false := by
          rw [beq_eq_false_iff_ne]
          simp only [beq_iff_eq] at hak
          rw [hak]; exact h
        simp [List.filter_cons, hak, List.lookup, hka, ih]
      · simp only [List.filter_cons, hak, Bool.not_false, if_true]
        by_cases hka : (key == a.1) = true
        · simp [List.lookup, hka]
        · simp [List.lookup, hka, ih]

/-- C5 counterexample: record-success on a policy whose in-memory IKEv2
failure counter is 3 (current protocol OpenVPN-TCP) writes exactly one
durable key — the protocol string — and a fresh process starts with the
static counter at 0, not 3: the counter does not survive a restart. -/
theorem saveSettings_counter_not_persisted_counterexample :
    ((saveCurrentSuccessfullConnectionSettings
        { attemps := [{ protocol := PROTOCOL.OPENVPN_TCP, portMapInd := 0,
                        changeNode := true }],
          curAttempt := 0, bIsAllFailed := false, bStarted := true,
          isFailedIkev2CounterAlreadyIncremented := false,
          failedIkev2Counter := 3,
          portMap := [{ protocol := PROTOCOL.OPENVPN_TCP, ports := [443] }],
          locationInfo := default } []).2).map Prod.fst =
      ["successConnectionProtocol"] ∧
    (saveCurrentSuccessfullConnectionSettings
        { attemps := [{ protocol := PROTOCOL.OPENVPN_TCP, portMapInd := 0,
                        changeNode := true }],
          curAttempt := 0, bIsAllFailed := false, bStarted := true,
          isFailedIkev2CounterAlreadyIncremented := false,
          failedIkev2Counter := 3,
          portMap := [{ protocol := PROTOCOL.OPENVPN_TCP, ports := [443] }],
          locationInfo := default } []).1.failedIkev2Counter = 3 ∧
    failedIkev2CounterAtProcessStart ≠ 3 := by
  refine ⟨rfl, rfl, by decide⟩

/-- C5 amended: record-success persists only the protocol string under the
key "successConnectionProtocol"; every other durable key is untouched.  The
IKEv2 failure counter stays in memory: it is reset to 0 exactly when the
succeeding protocol is IKEv2, and a fresh process starts with it at 0. -/
theorem saveSettings_persists_only_protocol (s : PolicyState)
    (settings : List (String × String)) (key : String)
    (hk : key ≠ "successConnectionProtocol") :
    ((saveCurrentSuccessfullConnectionSettings s settings).2).lookup key =
        settings.lookup key ∧
    (saveCurrentSuccessfullConnectionSettings s settings).1.failedIkev2Counter =
      (if (s.attemps.getD s.curAttempt defaultAttempt).protocol.isIkev2Protocol
        then 0 else s.failedIkev2Counter) ∧
    failedIkev2CounterAtProcessStart = 0 := by
  refine ⟨?_, ?_, rfl⟩
  · have hk' : (key == "successConnectionProtocol") = false := by
      simp [beq_iff_eq, hk]
    simp only [saveCurrentSuccessfullConnectionSettings, setValue,
      List.lookup, hk']
    exact lookup_filter_ne settings "successConnectionProtocol" key hk
  · simp only [saveCurrentSuccessfullConnectionSettings]
    split_ifs <;> rfl

/-- Witness for C5-amended at a concrete policy state and settings store. -/
theorem saveSettings_persists_only_protocol_witness :
    ((saveCurrentSuccessfullConnectionSettings
        { attemps := [{ protocol := PROTOCOL.IKEV2, portMapInd := 0,
                        changeNode := true }],
          curAttempt := 0, bIsAllFailed := false, bStarted := true,
          isFailedIkev2CounterAlreadyIncremented := false,
          failedIkev2Counter := 2,
          portMap := [{ protocol := PROTOCOL.IKEV2, ports := [500] }],
          locationInfo := default } [("otherKey", "v")]).2).lookup "otherKey" =
      [("otherKey", "v")].lookup "otherKey" ∧
    (saveCurrentSuccessfullConnectionSettings
        { attemps := [{ protocol := PROTOCOL.IKEV2, portMapInd := 0,
                        changeNode := true }],
          curAttempt := 0, bIsAllFailed := false, bStarted := true,
          isFailedIkev2CounterAlreadyIncremented := false,
          failedIkev2Counter := 2,
          portMap := [{ protocol := PROTOCOL.IKEV2, ports := [500] }],
          locationInfo := default } [("otherKey", "v")]).1.failedIkev2Counter = 0 := by
  obtain ⟨h1, h2, _⟩ := saveSettings_persists_only_protocol
    { attemps := [{ protocol := PROTOCOL.IKEV2, portMapInd := 0,
                    changeNode := true }],
      curAttempt := 0, bIsAllFailed := false, bStarted := true,
      isFailedIkev2CounterAlreadyIncremented := false,
      failedIkev2Counter := 2,
      portMap := [{ protocol := PROTOCOL.IKEV2, ports := [500] }],
      locationInfo := default } [("otherKey", "v")] "otherKey" (by decide)
  exact ⟨h1, by rw [h2]; decide⟩

/-- C6 counterexample: a session over a single PortMap entry with two
candidate ports [443, 80].  Both attempts of the session resolve the same
entry, and both select port 443 — the second attempt does not move on to
port 80, so ports within an entry are not tried in order across attempts. -/
theorem getCurrentConnectionSettings_port_counterexample :
    (buildPlan [{ protocol := PROTOCOL.OPENVPN_TCP, ports := [443, 80] }]
        false 0 PROTOCOL.UNINITIALIZED 1).map AttemptInfo.portMapInd = [0, 0] ∧
    (getCurrentConnectionSettings (fun _ => 0)
      { attemps := buildPlan [{ protocol := PROTOCOL.OPENVPN_TCP, ports := [443, 80] }]
          false 0 PROTOCOL.UNINITIALIZED 1,
        curAttempt := 0, bIsAllFailed := false, bStarted := true,
        isFailedIkev2CounterAlreadyIncremented := false, failedIkev2Counter := 0,
        portMap := [{ protocol := PROTOCOL.OPENVPN_TCP, ports := [443, 80] }],
        locationInfo := default }).port = 443 ∧
    (putFailedConnection
      { attemps := buildPlan [{ protocol := PROTOCOL.OPENVPN_TCP, ports := [443, 80] }]
          false 0 PROTOCOL.UNINITIALIZED 1,
        curAttempt := 0, bIsAllFailed := false, bStarted := true,
        isFailedIkev2CounterAlreadyIncremented := false, failedIkev2Counter := 0,
        portMap := [{ protocol := PROTOCOL.OPENVPN_TCP, ports := [443, 80] }],
        locationInfo := default }).curAttempt = 1 ∧
    (getCurrentConnectionSettings (fun _ => 0)
      (putFailedConnection
        { attemps := buildPlan [{ protocol := PROTOCOL.OPENVPN_TCP, ports := [443, 80] }]
            false 0 PROTOCOL.UNINITIALIZED 1,
          curAttempt := 0, bIsAllFailed := false, bStarted := true,
          isFailedIkev2CounterAlreadyIncremented := false, failedIkev2Counter := 0,
          portMap := [{ protocol := PROTOCOL.OPENVPN_TCP, ports := [443, 80] }],
          locationInfo := default })).port = 443 := by
  refine ⟨rfl, rfl, rfl, rfl⟩

/-- C6 amended: the resolved port of every attempt is the first port
(ports[0]) of the attempt's PortMap entry; any two attempt cursors that
resolve the same entry of the same PortMap select the same port, namely
that first port. -/
theorem getCurrentConnectionSettings_port_first (f g : PROTOCOL → Nat)
    (s t : PolicyState) (hpm : t.portMap = s.portMap)
    (hind : (t.attemps.getD t.curAttempt defaultAttempt).portMapInd =
        (s.attemps.getD s.curAttempt defaultAttempt).portMapInd) :
    (getCurrentConnectionSettings f s).port =
      ((s.portMap.getD (s.attemps.getD s.curAttempt defaultAttempt).portMapInd
          default).ports.getD 0 0) ∧
    (getCurrentConnectionSettings g t).port =
      (getCurrentConnectionSettings f s).port := by
  have hport : ∀ (h : PROTOCOL → Nat) (u : PolicyState),
      (getCurrentConnectionSettings h u).port =
        ((u.portMap.getD (u.attemps.getD u.curAttempt defaultAttempt).portMapInd
            default).ports.getD 0 0) := by
    intro h u
    simp only [getCurrentConnectionSettings]
    split_ifs <;> rfl
  refine ⟨hport f s, ?_⟩
  rw [hport g t, hport f s, hpm, hind]

/-- Witness for C6-amended: two cursors (attempt 0 and attempt 1) over the
same single-entry PortMap with ports [443, 80] both resolve port 443. -/
theorem getCurrentConnectionSettings_port_first_witness :
    (getCurrentConnectionSettings (fun _ => 0)
      { attemps := [{ protocol := PROTOCOL.OPENVPN_TCP, portMapInd := 0, changeNode := true },
                    { protocol := PROTOCOL.OPENVPN_TCP, portMapInd := 0, changeNode := true }],
        curAttempt := 0, bIsAllFailed := false, bStarted := true,
        isFailedIkev2CounterAlreadyIncremented := false, failedIkev2Counter := 0,
        portMap := [{ protocol := PROTOCOL.OPENVPN_TCP, ports := [443, 80] }],
        locationInfo := default }).port = 443 ∧
    (getCurrentConnectionSettings (fun _ => 1)
      { attemps := [{ protocol := PROTOCOL.OPENVPN_TCP, portMapInd := 0, changeNode := true },
                    { protocol := PROTOCOL.OPENVPN_TCP, portMapInd := 0, changeNode := true }],
        curAttempt := 1, bIsAllFailed := false, bStarted := true,
        isFailedIkev2CounterAlreadyIncremented := false, failedIkev2Counter := 0,
        portMap := [{ protocol := PROTOCOL.OPENVPN_TCP, ports := [443, 80] }],
        locationInfo := default }).port =
      (getCurrentConnectionSettings (fun _ => 0)
        { attemps := [{ protocol := PROTOCOL.OPENVPN_TCP, portMapInd := 0, changeNode := true },
                      { protocol := PROTOCOL.OPENVPN_TCP, portMapInd := 0, changeNode := true }],
          curAttempt := 0, bIsAllFailed := false, bStarted := true,
          isFailedIkev2CounterAlreadyIncremented := false, failedIkev2Counter := 0,
          portMap := [{ protocol := PROTOCOL.OPENVPN_TCP, ports := [443, 80] }],
          locationInfo := default }).port := by
  obtain ⟨h1, h2⟩ := getCurrentConnectionSettings_port_first (fun _ => 0) (fun _ => 1)
    { attemps := [{ protocol := PROTOCOL.OPENVPN_TCP, portMapInd := 0, changeNode := true },
                  { protocol := PROTOCOL.OPENVPN_TCP, portMapInd := 0, changeNode := true }],
      curAttempt := 0, bIsAllFailed := false, bStarted := true,
      isFailedIkev2CounterAlreadyIncremented := false, failedIkev2Counter := 0,
      portMap := [{ protocol := PROTOCOL.OPENVPN_TCP, ports := [443, 80] }],
      locationInfo := default }
    { attemps := [{ protocol := PROTOCOL.OPENVPN_TCP, portMapInd := 0, changeNode := true },
                  { protocol := PROTOCOL.OPENVPN_TCP, portMapInd := 0, changeNode := true }],
      curAttempt := 1, bIsAllFailed := false, bStarted := true,
      isFailedIkev2CounterAlreadyIncremented := false, failedIkev2Counter := 0,
      portMap := [{ protocol := PROTOCOL.OPENVPN_TCP, ports := [443, 80] }],
      locationInfo := default } rfl rfl
  exact ⟨by rw [h1]; rfl, h2⟩

/-- Return codes of the probe service (serverapi.h is outside the extracted
sources; testvpntunnel.cpp only distinguishes SERVER_RETURN_SUCCESS from
everything else). -/
inductive SERVER_API_RET_CODE where
  | SERVER_RETURN_SUCCESS
  | SERVER_RETURN_NETWORK_ERROR
deriving DecidableEq, Repr, Inhabited

/-- Modelled from the spec: the base tunnel-test timeout PING_TEST_TIMEOUT_1
of testvpntunnel.h (the header is not among the extracted sources); the
spec states exponential growth from a base value, representative 2000 ms. -/
def PING_TEST_TIMEOUT_1 : Int := 2000

/-- Modelled from the spec: the capped maximum tunnel-test timeout
PING_TEST_TIMEOUT_3 of testvpntunnel.h; the base doubles up to this cap,
representative 8000 ms. -/
def PING_TEST_TIMEOUT_3 : Int := 8000

/-- The ExtraConfig override knobs read by startTestImpl; `none` models
"advanced parameter not present". -/
structure ExtraConfigTunnelTest where
  tunnelTestAttempts : Option Nat
  tunnelTestTimeout : Option Int
  tunnelTestRetryDelay : Option Int
deriving DecidableEq, Repr, Inhabited

/-- The mutable state of a TestVPNTunnel object. -/
structure TunnelTestState where
  bRunning : Bool
  curTest : Nat
  timeouts : List Int
  doCustomTunnelTest : Bool
  cmdId : Nat
  testRetryDelay : Int
deriving DecidableEq, Repr, Inhabited

/-- Externally visible actions of the prober: a pingTest call to the probe
service (with command id and timeout), a QTimer::singleShot scheduling of
doNextPingTest, the scheduled onTestsSkipped callback, and the
testsFinished signal. -/
inductive ProbeEvent where
  | pingTest (cmdId : Nat) (timeout : Int)
  | scheduleNextPingTest (delayMs : Int)
  | testsSkippedScheduled
  | testsFinished (success : Bool) (payload : String)
deriving DecidableEq, Repr, Inhabited

/-- The default-timeout loop of startTestImpl (testvpntunnel.cpp lines
59-67): push the running timeout each iteration, doubling it while it is
below the cap. -/
def defaultTimeoutsAux : Nat → Int → List Int
  | 0, _ => []
  | n + 1, timeout =>
      timeout :: defaultTimeoutsAux n
        (if timeout < PING_TEST_TIMEOUT_3 then timeout * 2 else timeout)

/-- Timeout schedule of the default (non-override) tunnel test. -/
def defaultTimeouts (attempts : Nat) : List Int :=
  defaultTimeoutsAux attempts PING_TEST_TIMEOUT_1

/-- TestVPNTunnel constructor state (line 9): not running, test counter 1,
command id 0, no custom test. -/
def initialTunnelTestState : TunnelTestState :=
  { bRunning := false, curTest := 1, timeouts := [],
    doCustomTunnelTest := false, cmdId := 0, testRetryDelay := 0 }

/-- TestVPNTunnel::startTestImpl (lines 39-93): read override attempts
(default 3); zero attempts schedules onTestsSkipped and sends nothing;
otherwise build the timeout list (override: constant fill; default:
exponential schedule), read the retry delay, then start test 1 by issuing
one pingTest with the first timeout and a fresh command id. -/
def startTestImpl (cfg : ExtraConfigTunnelTest) (s : TunnelTestState) :
    TunnelTestState × List ProbeEvent :=
  let s0 := { s with timeouts := [] }
  let ac : Nat × TunnelTestState :=
    match cfg.tunnelTestAttempts with
    | none => (3, s0)
    | some a => (a, { s0 with doCustomTunnelTest := true })
  let attempts := ac.1
  let s1 := ac.2
  if attempts = 0 then (s1, [ProbeEvent.testsSkippedScheduled])
  else
    let s2 :=
      match cfg.tunnelTestTimeout with
      | none => { s1 with timeouts := defaultTimeouts attempts }
      | some t => { s1 with timeouts := List.replicate attempts t,
                            doCustomTunnelTest := true }
    let s3 :=
      match cfg.tunnelTestRetryDelay with
      | none => { s2 with testRetryDelay := 0 }
      | some d => { s2 with testRetryDelay := d, doCustomTunnelTest := true }
    let s4 := { s3 with bRunning := true, curTest := 1, cmdId := s3.cmdId + 1 }
    (s4, [ProbeEvent.pingTest s4.cmdId (s4.timeouts.getD 0 0)])

/-- TestVPNTunnel::onTestsSkipped (lines 193-197). -/
def onTestsSkipped : List ProbeEvent :=
  [ProbeEvent.testsFinished true ""]

/-- TestVPNTunnel::doNextPingTest (lines 161-190); `elapsed` is the value
of the per-attempt QElapsedTimer at the time of the call. -/
def doNextPingTest (elapsed : Int) (s : TunnelTestState) :
    TunnelTestState × List ProbeEvent :=
  if s.bRunning && decide (1 ≤ s.curTest) && decide (s.curTest ≤ s.timeouts.length) then
    let s1 := { s with cmdId := s.cmdId + 1 }
    if s1.doCustomTunnelTest then
      (s1, [ProbeEvent.pingTest s1.cmdId (s1.timeouts.getD (s1.curTest - 1) 0)])
    else
      if 0 < s1.timeouts.getD (s1.curTest - 1) 0 - elapsed then
        (s1, [ProbeEvent.pingTest s1.cmdId
                (s1.timeouts.getD (s1.curTest - 1) 0 - elapsed)])
      else
        (s1, [ProbeEvent.pingTest s1.cmdId 100])
  else (s, [])

/-- TestVPNTunnel::onPingTestAnswer (lines 105-159); `isIp` abstracts
IpValidation::isIp (utils/ipvalidation is outside the extracted sources)
and `elapsed` the per-attempt QElapsedTimer reading.  Success requires a
SERVER_RETURN_SUCCESS code and a well-formed IP payload; otherwise: custom
mode advances or finishes; default mode retries inside the attempt's time
budget, else advances (restarting the attempt timer) or finishes with an
empty payload. -/
def onPingTestAnswer (isIp : String → Bool) (retCode : SERVER_API_RET_CODE)
    (data : String) (elapsed : Int) (s : TunnelTestState) :
    TunnelTestState × List ProbeEvent :=
  if s.bRunning then
    let trimmedData := data.trim
    if retCode == SERVER_API_RET_CODE.SERVER_RETURN_SUCCESS && isIp trimmedData then
      ({ s with bRunning := false }, [ProbeEvent.testsFinished true trimmedData])
    else
      if s.doCustomTunnelTest then
        if s.curTest < s.timeouts.length then
          ({ s with curTest := s.curTest + 1 },
           [ProbeEvent.scheduleNextPingTest s.testRetryDelay])
        else
          ({ s with bRunning := false }, [ProbeEvent.testsFinished false ""])
      else
        if elapsed < s.timeouts.getD (s.curTest - 1) 0 then
          (s, [ProbeEvent.scheduleNextPingTest 100])
        else
          if s.curTest < s.timeouts.length then
            doNextPingTest 0 { s with curTest := s.curTest + 1 }
          else
            ({ s with bRunning := false }, [ProbeEvent.testsFinished false ""])
  else (s, [])

/-- C4: under the default policy (no override configuration) the prober
issues exactly one probe per attempt, three in all, with timeouts 2000,
4000, 8000 ms — non-decreasing and capped at PING_TEST_TIMEOUT_3 — when
every reply fails (non-success code or malformed IP) and arrives after the
attempt's time budget; after the third failure it signals overall failure
with an empty payload.  Each conjunct gives the exact state and emitted
events of one step of the run. -/
theorem tunnelTest_default_all_failures (isIp : String → Bool)
    (r1c r2c r3c : SERVER_API_RET_CODE) (d1 d2 d3 : String) (e1 e2 e3 : Int)
    (hf1 : (r1c == SERVER_API_RET_CODE.SERVER_RETURN_SUCCESS && isIp d1.trim) = false)
    (hf2 : (r2c == SERVER_API_RET_CODE.SERVER_RETURN_SUCCESS && isIp d2.trim) = false)
    (hf3 : (r3c == SERVER_API_RET_CODE.SERVER_RETURN_SUCCESS && isIp d3.trim) = false)
    (he1 : (defaultTimeouts 3).getD 0 0 ≤ e1)
    (he2 : (defaultTimeouts 3).getD 1 0 ≤ e2)
    (he3 : (defaultTimeouts 3).getD 2 0 ≤ e3) :
    startTestImpl
        { tunnelTestAttempts := none, tunnelTestTimeout := none,
          tunnelTestRetryDelay := none } initialTunnelTestState =
      ({ bRunning := true, curTest := 1, timeouts := [2000, 4000, 8000],
         doCustomTunnelTest := false, cmdId := 1, testRetryDelay := 0 },
       [ProbeEvent.pingTest 1 2000]) ∧
    onPingTestAnswer isIp r1c d1 e1
        { bRunning := true, curTest := 1, timeouts := [2000, 4000, 8000],
          doCustomTunnelTest := false, cmdId := 1, testRetryDelay := 0 } =
      ({ bRunning := true, curTest := 2, timeouts := [2000, 4000, 8000],
         doCustomTunnelTest := false, cmdId := 2, testRetryDelay := 0 },
       [ProbeEvent.pingTest 2 4000]) ∧
    onPingTestAnswer isIp r2c d2 e2
        { bRunning := true, curTest := 2, timeouts := [2000, 4000, 8000],
          doCustomTunnelTest := false, cmdId := 2, testRetryDelay := 0 } =
      ({ bRunning := true, curTest := 3, timeouts := [2000, 4000, 8000],
         doCustomTunnelTest := false, cmdId := 3, testRetryDelay := 0 },
       [ProbeEvent.pingTest 3 8000]) ∧
    onPingTestAnswer isIp r3c d3 e3
        { bRunning := true, curTest := 3, timeouts := [2000, 4000, 8000],
          doCustomTunnelTest := false, cmdId := 3, testRetryDelay := 0 } =
      ({ bRunning := false, curTest := 3, timeouts := [2000, 4000, 8000],
         doCustomTunnelTest := false, cmdId := 3, testRetryDelay := 0 },
       [ProbeEvent.testsFinished false ""]) ∧
    List.Chain' (fun a b => a ≤ b) [(2000 : Int), 4000, 8000] ∧
    (∀ t ∈ [(2000 : Int), 4000, 8000], t ≤ PING_TEST_TIMEOUT_3) := by
  have hg1 : (defaultTimeouts 3).getD 0 0 = 2000 := by decide
  have hg2 : (defaultTimeouts 3).getD 1 0 = 4000 := by decide
  have hg3 : (defaultTimeouts 3).getD 2 0 = 8000 := by decide
  rw [hg1] at he1
  rw [hg2] at he2
  rw [hg3] at he3
  have hP1 : ¬((r1c == SERVER_API_RET_CODE.SERVER_RETURN_SUCCESS) = true ∧
      isIp d1.trim = true) := by
    intro hcontra
    rw [hcontra.1, hcontra.2] at hf1
    simp at hf1
  have hP2 : ¬((r2c == SERVER_API_RET_CODE.SERVER_RETURN_SUCCESS) = true ∧
      isIp d2.trim = true) := by
    intro hcontra
    rw [hcontra.1, hcontra.2] at hf2
    simp at hf2
  have hP3 : ¬((r3c == SERVER_API_RET_CODE.SERVER_RETURN_SUCCESS) = true ∧
      isIp d3.trim = true) := by
    intro hcontra
    rw [hcontra.1, hcontra.2] at hf3
    simp at hf3
  have hne1 : ¬ (e1 < (2000 : Int)) := by omega
  have hne2 : ¬ (e2 < (4000 : Int)) := by omega
  have hne3 : ¬ (e3 < (8000 : Int)) := by omega
  refine ⟨by decide, ?_, ?_, ?_, by norm_num [List.chain'_cons], by decide⟩
  · simp [onPingTestAnswer, doNextPingTest, hf1, hP1, hne1]
  · simp [onPingTestAnswer, doNextPingTest, hf2, hP2, hne2]
  · simp [onPingTestAnswer, doNextPingTest, hf3, hP3, hne3]

/-- Witness for C4: the third failing reply (network error, empty payload,
arriving at 8000 ms) on the third-attempt state ends the run with an
overall failure carrying an empty payload. -/
theorem tunnelTest_default_all_failures_witness :
    onPingTestAnswer (fun _ => false)
        SERVER_API_RET_CODE.SERVER_RETURN_NETWORK_ERROR "" 8000
        { bRunning := true, curTest := 3, timeouts := [2000, 4000, 8000],
          doCustomTunnelTest := false, cmdId := 3, testRetryDelay := 0 } =
      ({ bRunning := false, curTest := 3, timeouts := [2000, 4000, 8000],
         doCustomTunnelTest := false, cmdId := 3, testRetryDelay := 0 },
       [ProbeEvent.testsFinished false ""]) := by
  exact (tunnelTest_default_all_failures (fun _ => false)
    SERVER_API_RET_CODE.SERVER_RETURN_NETWORK_ERROR
    SERVER_API_RET_CODE.SERVER_RETURN_NETWORK_ERROR
    SERVER_API_RET_CODE.SERVER_RETURN_NETWORK_ERROR
    "" "" "" 2000 4000 8000
    (by decide) (by decide) (by decide)
    (by decide) (by decide) (by decide)).2.2.2.1

/-- C10: with an override attempt count of 0, startTestImpl issues no probe
at all — it only schedules onTestsSkipped — and the scheduled callback
emits an overall result of success with an empty payload, regardless of the
other override knobs and prior state. -/
theorem startTestImpl_zero_attempts_skips (t r : Option Int)
    (s : TunnelTestState) :
    (startTestImpl
        { tunnelTestAttempts := some 0, tunnelTestTimeout := t,
          tunnelTestRetryDelay := r } s).2 =
      [ProbeEvent.testsSkippedScheduled] ∧
    onTestsSkipped = [ProbeEvent.testsFinished true ""] := by
  exact ⟨rfl, rfl⟩

/-- Connection error codes used by wireguardconnection_win.cpp. -/
inductive CONNECT_ERROR where
  | STATE_TIMEOUT_FOR_AUTOMATIC
  | EXE_VERIFY_WIREGUARD_ERROR
  | WIREGUARD_CONNECTION_ERROR
  | WIREGUARD_ADAPTER_SETUP_FAILED
deriving DecidableEq, Repr, Inhabited

/-- Externally visible actions of a WireGuardConnection: the error and
disconnected signal emissions and a request to quit the run loop. -/
inductive WGEvent where
  | errorEmitted (e : CONNECT_ERROR)
  | disconnectedEmitted
  | quitRequested
deriving DecidableEq, Repr, Inhabited

/-- Windows service status values consulted by
WireGuardConnection::isDisconnected. -/
inductive ServiceStatus where
  | SERVICE_STOPPED
  | SERVICE_STOP_PENDING
  | SERVICE_START_PENDING
  | SERVICE_RUNNING
deriving DecidableEq, Repr, Inhabited

/-- The slice of a WireGuardConnection object that startDisconnect and
isDisconnected read: whether the QThread run loop is running, whether the
service control manager holds an open service handle, and the status a
query would report (`none` models queryServiceStatus throwing
std::system_error, which isDisconnected catches). -/
structure WireGuardConnectionState where
  running : Bool
  serviceOpen : Bool
  queryStatus : Option ServiceStatus
deriving DecidableEq, Repr, Inhabited

/-- WireGuardConnection::isDisconnected (lines 313-326): dwStatus starts as
SERVICE_STOPPED, is overwritten by a successful query when the service is
open (an exception leaves it SERVICE_STOPPED), and the connection counts
as disconnected when the status is stopped or stop-pending. -/
def isDisconnected (s : WireGuardConnectionState) : Bool :=
  let dwStatus :=
    if s.serviceOpen then s.queryStatus.getD ServiceStatus.SERVICE_STOPPED
    else ServiceStatus.SERVICE_STOPPED
  dwStatus == ServiceStatus.SERVICE_STOPPED ||
    dwStatus == ServiceStatus.SERVICE_STOP_PENDING

/-- WireGuardConnection::startDisconnect (lines 301-311): a running thread
is asked to quit (the disconnected signal is emitted later by run());
otherwise, when the platform service is already torn down, the
disconnected signal is emitted directly; otherwise nothing happens. -/
def startDisconnect (s : WireGuardConnectionState) : List WGEvent :=
  if s.running then [WGEvent.quitRequested]
  else if isDisconnected s then [WGEvent.disconnectedEmitted]
  else []

/-- WireGuardConnection::onAutomaticConnectionTimeout (lines 511-517): when
no connected signal has been emitted for this run, emit the
automatic-mode-timeout error and request the run loop to quit; otherwise
do nothing. -/
def onAutomaticConnectionTimeout (connectedSignalEmited : Bool) : List WGEvent :=
  if !connectedSignalEmited then
    [WGEvent.errorEmitted CONNECT_ERROR.STATE_TIMEOUT_FOR_AUTOMATIC,
     WGEvent.quitRequested]
  else []

/-- Events contributed by the automatic-connection timeout over one run:
the timer is created single-shot (run(), lines 400-406), so the handler is
invoked at most once per run, when the timer fires. -/
def automaticTimeoutRunEvents (timerFires connectedSignalEmited : Bool) :
    List WGEvent :=
  if timerFires then onAutomaticConnectionTimeout connectedSignalEmited
  else []

/-- C8: over one automatic-mode run, if the single-shot timeout fires
before any connected event was emitted, exactly one
STATE_TIMEOUT_FOR_AUTOMATIC error and exactly one stop request are
produced; if a connected event was already emitted (or the timer never
fires), the handler emits nothing. -/
theorem automaticConnectionTimeout_exactly_once
    (timerFires connectedSignalEmited : Bool) :
    (automaticTimeoutRunEvents timerFires connectedSignalEmited).count
        (WGEvent.errorEmitted CONNECT_ERROR.STATE_TIMEOUT_FOR_AUTOMATIC) =
      (if timerFires && !connectedSignalEmited then 1 else 0) ∧
    (automaticTimeoutRunEvents timerFires connectedSignalEmited).count
        WGEvent.quitRequested =
      (if timerFires && !connectedSignalEmited then 1 else 0) ∧
    (connectedSignalEmited = true →
      onAutomaticConnectionTimeout connectedSignalEmited = []) := by
  cases timerFires <;> cases connectedSignalEmited <;>
    exact ⟨rfl, rfl, by intro h; first | rfl | exact absurd h (by decide)⟩

/-- C9: startDisconnect on a connection whose run loop is not running and
whose platform service is already torn down emits the disconnected signal;
a connection that was never started (no thread, no open service handle)
satisfies both and so yields a disconnected event from stop. -/
theorem startDisconnect_notRunning_emits_disconnected
    (s : WireGuardConnectionState) (hrun : s.running = false)
    (hdisc : isDisconnected s = true) :
    startDisconnect s = [WGEvent.disconnectedEmitted] := by
  simp [startDisconnect, hrun, hdisc]

/-- Witness for C9: a never-started connection (thread not running, no open
service handle) yields a disconnected event from stop. -/
theorem startDisconnect_notRunning_emits_disconnected_witness :
    startDisconnect
        { running := false, serviceOpen := false, queryStatus := none } =
      [WGEvent.disconnectedEmitted] :=
  startDisconnect_notRunning_emits_disconnected
    { running := false, serviceOpen := false, queryStatus := none }
    (by decide) (by decide)

/-- Witness for C8: with the timer firing after a connected event, the
handler emits nothing; the counts at concrete flag values follow from the
theorem. -/
theorem automaticConnectionTimeout_exactly_once_witness :
    onAutomaticConnectionTimeout true = [] :=
  (automaticConnectionTimeout_exactly_once true true).2.2 rfl
